import Mathlib

/-!
Verification of the SysMonServer telemetry sampling engine (src/main.py).

Shallow embedding conventions:
* Python floats are modelled as `ℚ` (a total, finite number type: the model has
  no NaN or infinity, so a numeric field being "present and finite" corresponds
  to the embedded function being total into a record of `ℚ`/`ℤ` fields).
* Python ints are `ℤ`.
* A fallible provider call (`psutil`/`pynvml` query wrapped in `try`) is an
  `Except Unit` input; a value that may be `None`/falsy is an `Option`.
* `dict` objects keyed by strings are association lists with Python update
  semantics (overwrite in place, append new keys at the end).
* `round(x, n)` is Python 3 float rounding, i.e. round-half-to-even.
-/

/-- Round-half-to-even of a rational, the tie-breaking rule of Python 3
`round`. -/
def roundHalfEven (x : ℚ) : ℤ :=
  if x - ⌊x⌋ < 1/2 then ⌊x⌋
  else if 1/2 < x - ⌊x⌋ then ⌊x⌋ + 1
  else if ⌊x⌋ % 2 = 0 then ⌊x⌋ else ⌊x⌋ + 1

/-- Python `round(x, n)` on our rational model of floats. -/
def pyRound (x : ℚ) (n : ℕ) : ℚ :=
  (roundHalfEven (x * 10 ^ n) : ℚ) / 10 ^ n

/-- Python `s.startswith(p)`, defined structurally on the character list so
that it evaluates inside the kernel. -/
def pyStartsWith (s p : String) : Bool :=
  p.toList.isPrefixOf s.toList

/-- Python `s.replace(c, r)` for one-character patterns. -/
def pyReplaceChar (s : String) (c r : Char) : String :=
  ⟨s.toList.map fun a => if a = c then r else a⟩

/-- Python `s.replace(c, '')` for one-character patterns (deletion). -/
def pyReplaceDrop (s : String) (c : Char) : String :=
  ⟨s.toList.filter fun a => a ≠ c⟩

/-- Python `s.lower()`. -/
def pyLower (s : String) : String :=
  ⟨s.toList.map Char.toLower⟩

/-- Python `sub in s` (substring containment). -/
def pyContains (s sub : String) : Bool :=
  s.toList.tails.any fun t => sub.toList.isPrefixOf t

/-- Python `s.strip(c)` for a one-character strip set. -/
def pyStripChar (s : String) (c : Char) : String :=
  ⟨((s.toList.dropWhile fun a => a = c).reverse.dropWhile fun a => a = c).reverse⟩

/-- Python `s.split(c)[-1]`: the suffix after the last occurrence of `c`
(or all of `s` when `c` does not occur). -/
def pySplitLast (s : String) (c : Char) : String :=
  ⟨s.toList.foldl (fun acc ch => if ch = c then [] else acc ++ [ch]) []⟩

/-- Lookup in a Python-style string-keyed dict (association list). -/
def dictGet {V : Type} : List (String × V) → String → Option V
  | [], _ => none
  | e :: t, k => if e.1 = k then some e.2 else dictGet t k

/-- Python `d[k] = v`: overwrite in place when the key exists, append
otherwise. -/
def dictInsert {V : Type} : List (String × V) → String → V → List (String × V)
  | [], k, v => [(k, v)]
  | e :: t, k, v => if e.1 = k then (k, v) :: t else e :: dictInsert t k v

/-- The cumulative counters of `psutil.net_io_counters()` used by the code. -/
structure NetCounters where
  bytes_sent : ℤ
  bytes_recv : ℤ
deriving DecidableEq

/-- Result record of `SystemMonitor.get_cpu_stats`. -/
structure CpuRecord where
  usage : ℚ
  frequency : ℚ
  max_frequency : ℚ
deriving DecidableEq

/-- Result record of `SystemMonitor.get_memory_stats`. -/
structure MemRecord where
  usage_percent : ℚ
  used_gb : ℚ
  total_gb : ℚ
deriving DecidableEq

/-- Result record of `SystemMonitor.get_gpu_stats`. -/
structure GpuRecord where
  name : String
  temperature : ℤ
  max_temp : ℤ
  fan_speed : ℤ
  fan_percent : ℤ
  power_draw : ℚ
  max_power : ℚ
  usage : ℤ
  memory_usage : ℚ
  memory_used : ℚ
  memory_total : ℚ
  driver_version : String
  cuda_version : String
deriving DecidableEq

/-- One value of the `disks` mapping built by `SystemMonitor.get_disk_stats`. -/
structure DiskEntry where
  used : ℚ
  total : ℚ
  label : String
  fstype : String
deriving DecidableEq

/-- Result record of `SystemMonitor.get_network_stats`. -/
structure NetRecord where
  usage : ℚ
  upload_speed : ℚ
  download_speed : ℚ
  total_sent : ℚ
  total_received : ℚ
deriving DecidableEq

/-- One value of the `connected_clients` dict of `SystemMonitor`. -/
structure ClientRecord where
  ip : String
  connected_at : String
  last_seen : String
deriving DecidableEq

/-- What a successful `psutil` CPU query pair returns: `cpu_percent` plus the
optional `cpu_freq` object (current, max). -/
structure CpuData where
  percent : ℚ
  freq : Option (ℚ × ℚ)

/-- What a successful `psutil.virtual_memory()` returns (fields used). -/
structure MemData where
  percent : ℚ
  used : ℚ
  total : ℚ

/-- The six `pynvml` sub-queries of `get_gpu_stats`, each independently
fallible. `powerQ` carries (usage, limit) in milliwatts, `memQ` carries
(used, total) in bytes, `verQ` carries the driver string and the raw CUDA
version integer. -/
structure GpuQueries where
  tempQ : Except Unit ℤ
  fanQ : Except Unit ℤ
  powerQ : Except Unit (ℤ × ℤ)
  utilQ : Except Unit ℤ
  memQ : Except Unit (ℤ × ℤ)
  verQ : Except Unit (String × ℤ)

/-- `psutil.disk_usage` result in bytes. -/
structure DiskUsageData where
  used : ℤ
  total : ℤ

/-- One entry of `psutil.disk_partitions()`, with its per-volume
`disk_usage` query (fallible: permission / OS errors are skipped). -/
structure PartitionData where
  device : String
  mountpoint : String
  fstype : String
  opts : String
  usage : Except Unit DiskUsageData

/-- One address record of `psutil.net_if_addrs()`: the `family` constant and
the address string (family 2 is AF_INET). -/
structure IfaceAddr where
  family : ℤ
  address : String

/-- Embeds `SystemMonitor.get_cpu_stats` (src/main.py lines 115-136).
The `Except` input is the `try` block: any provider error yields the
documented fallback record. -/
def get_cpu_stats (d : Except Unit CpuData) : CpuRecord :=
  match d with
  | .error _ => { usage := 0, frequency := 0, max_frequency := 5 }
  | .ok d =>
    let fr : ℚ × ℚ :=
      match d.freq with
      | some f => (f.1 / 1000, if f.2 ≠ 0 then f.2 / 1000 else 5)
      | none => (0, 5)
    { usage := pyRound d.percent 1
      frequency := pyRound fr.1 1
      max_frequency := pyRound fr.2 1 }

/-- Embeds `SystemMonitor.get_memory_stats` (src/main.py lines 138-149). -/
def get_memory_stats (d : Except Unit MemData) : MemRecord :=
  match d with
  | .error _ => { usage_percent := 0, used_gb := 0, total_gb := 0 }
  | .ok m =>
    { usage_percent := pyRound m.percent 1
      used_gb := pyRound (m.used / 2 ^ 30) 1
      total_gb := pyRound (m.total / 2 ^ 30) 1 }

/-- The fully-zeroed GPU record the code builds in its unavailable / error
branches, parametrised by the name and version sentinels used there. -/
def gpu_zero_record (name dv cv : String) : GpuRecord :=
  { name := name, temperature := 0, max_temp := 0, fan_speed := 0
    fan_percent := 0, power_draw := 0, max_power := 0, usage := 0
    memory_usage := 0, memory_used := 0, memory_total := 0
    driver_version := dv, cuda_version := cv }

/-- The CUDA version string `f"{v // 1000}.{(v % 1000) // 10}"` (Python floor
division and modulo). -/
def cudaVersionString (v : ℤ) : String :=
  toString (Int.fdiv v 1000) ++ "." ++ toString (Int.fdiv (Int.fmod v 1000) 10)

/-- Embeds `SystemMonitor.get_gpu_stats` (src/main.py lines 151-238) as a
function of the monitor's configuration (`NVIDIA_AVAILABLE`, presence of
`gpu_handle`, `gpu_name`), the current `max_gpu_temp` state and the tick's
provider queries. Returns the record and the new `max_gpu_temp`. The
temperature query is the only sub-query not wrapped in its own `try`, so its
failure is what reaches the outer handler. -/
def get_gpu_stats (nvidia_available has_handle : Bool) (gpu_name : String)
    (max_gpu_temp : ℤ) (q : GpuQueries) : GpuRecord × ℤ :=
  if nvidia_available = false then
    (gpu_zero_record "GPU Not Available" "N/A" "N/A", max_gpu_temp)
  else if has_handle = false then
    (gpu_zero_record gpu_name "Error" "Error", max_gpu_temp)
  else
    match q.tempQ with
    | .error _ => (gpu_zero_record gpu_name "Error" "Error", max_gpu_temp)
    | .ok temp =>
      let new_max : ℤ := max max_gpu_temp temp
      let fan : ℤ := match q.fanQ with | .ok f => f | .error _ => 0
      let pw : ℚ × ℚ :=
        match q.powerQ with
        | .ok p => ((p.1 : ℚ) / 1000, (p.2 : ℚ) / 1000)
        | .error _ => (0, 320)
      let gusage : ℤ := match q.utilQ with | .ok u => u | .error _ => 0
      let mem : ℚ × ℚ :=
        match q.memQ with
        | .ok m => ((m.1 : ℚ) / 2 ^ 30, (m.2 : ℚ) / 2 ^ 30)
        | .error _ => (0, 16)
      let memory_usage : ℚ := if 0 < mem.2 then mem.1 / mem.2 * 100 else 0
      let ver : String × String :=
        match q.verQ with
        | .ok v => (v.1, cudaVersionString v.2)
        | .error _ => ("Unknown", "Unknown")
      ({ name := gpu_name, temperature := temp, max_temp := new_max
         fan_speed := fan * 22, fan_percent := fan
         power_draw := pyRound pw.1 0, max_power := pyRound pw.2 0
         usage := gusage, memory_usage := pyRound memory_usage 1
         memory_used := pyRound mem.1 1, memory_total := pyRound mem.2 0
         driver_version := ver.1, cuda_version := ver.2 }, new_max)

/-- The virtual filesystem types skipped on Linux. -/
def linux_skip_fstypes : List String :=
  ["tmpfs", "devtmpfs", "sysfs", "proc", "squashfs", "overlay"]

/-- The reserved mount-point roots skipped on Linux. -/
def linux_skip_mounts : List String :=
  ["/sys", "/proc", "/dev", "/run", "/snap"]

/-- The per-volume dict key derived by `get_disk_stats` (sanitized mount path
on Linux, lower-cased device letter on Windows). -/
def disk_entry_key (is_linux : Bool) (p : PartitionData) : String :=
  if is_linux then
    let n := pyStripChar (pyReplaceChar p.mountpoint '/' '_') '_'
    if n = "" then "root" else n
  else
    pyLower (pyReplaceDrop (pyReplaceDrop p.device ':') '\\')

/-- The human-readable volume label derived by `get_disk_stats`. -/
def disk_display_name (is_linux : Bool) (p : PartitionData) : String :=
  if is_linux then p.mountpoint
  else if pyContains p.device "\\" then pySplitLast p.device '\\'
  else "Local Disk"

/-- Embeds `SystemMonitor.get_disk_stats` (src/main.py lines 240-286): filter
special volumes, skip volumes whose usage query fails, build the dict. A
failing enumeration yields the empty dict. -/
def get_disk_stats (is_linux : Bool)
    (parts : Except Unit (List PartitionData)) : List (String × DiskEntry) :=
  match parts with
  | .error _ => []
  | .ok l =>
    l.foldl (fun disks p =>
      let skip : Bool :=
        if is_linux then
          linux_skip_fstypes.contains p.fstype ||
            linux_skip_mounts.any fun m => pyStartsWith p.mountpoint m
        else
          pyContains p.opts "cdrom" || p.fstype == ""
      if skip then disks
      else
        match p.usage with
        | .error _ => disks
        | .ok u =>
          dictInsert disks (disk_entry_key is_linux p)
            { used := pyRound ((u.used : ℚ) / 2 ^ 30) 1
              total := pyRound ((u.total : ℚ) / 2 ^ 30) 1
              label := disk_display_name is_linux p
              fstype := p.fstype }) []

/-- Embeds `SystemMonitor._get_ip_addresses` (src/main.py lines 93-105): keep
the addresses of family AF_INET (2) that do not start with the string "169."
and are not exactly "127.0.0.1"; an enumeration error yields the empty list.
The nested loops with `append` are rendered as `bind`/`filterMap`, which
produces the same list in the same order. -/
def get_ip_addresses
    (ifs : Except Unit (List (String × List IfaceAddr))) : List String :=
  match ifs with
  | .error _ => []
  | .ok l =>
    l.flatMap fun iface =>
      iface.2.filterMap fun a =>
        if a.family = 2 ∧ pyStartsWith a.address "169." = false ∧
            a.address ≠ "127.0.0.1" then
          some a.address
        else none

/-- Embeds `SystemMonitor.add_client` (src/main.py lines 68-75). Both
timestamps are `datetime.now().isoformat()`, passed here as the opaque
string `now`. -/
def add_client (clients : List (String × ClientRecord))
    (client_id client_ip now : String) : List (String × ClientRecord) :=
  dictInsert clients client_id
    { ip := client_ip, connected_at := now, last_seen := now }

/-- Embeds `SystemMonitor.remove_client` (src/main.py lines 77-82). -/
def remove_client (clients : List (String × ClientRecord))
    (client_id : String) : List (String × ClientRecord) :=
  clients.filter fun e => !(e.1 == client_id)

/-- Embeds `SystemMonitor.update_client_activity` (src/main.py lines 84-87). -/
def update_client_activity (clients : List (String × ClientRecord))
    (client_id now : String) : List (String × ClientRecord) :=
  match dictGet clients client_id with
  | none => clients
  | some r => dictInsert clients client_id { r with last_seen := now }

/-- The all-zero network record returned on any failure or missing
baseline. -/
def netZeroRecord : NetRecord :=
  { usage := 0, upload_speed := 0, download_speed := 0
    total_sent := 0, total_received := 0 }

/-- Embeds `SystemMonitor.get_network_stats` (src/main.py lines 288-320) as a
function of the `network_baseline` state and this tick's counter reading
(`none` models both a failed/falsy read). Returns the record and the new
baseline. -/
def get_network_stats (network_baseline : Option NetCounters)
    (reading : Option NetCounters) : NetRecord × Option NetCounters :=
  match reading, network_baseline with
  | some current_stats, some base =>
    let time_diff : ℚ := 1
    let upload_speed : ℚ :=
      ((current_stats.bytes_sent - base.bytes_sent : ℤ) : ℚ) / time_diff
        * 8 / 1024 / 1024
    let download_speed : ℚ :=
      ((current_stats.bytes_recv - base.bytes_recv : ℤ) : ℚ) / time_diff
        * 8 / 1024 / 1024
    let total_sent : ℚ := (current_stats.bytes_sent : ℚ) / 2 ^ 30
    let total_received : ℚ := (current_stats.bytes_recv : ℚ) / 2 ^ 30
    let max_speed : ℚ := 100
    let usage : ℚ := max upload_speed download_speed / max_speed * 100
    ({ usage := pyRound (min usage 100) 1
       upload_speed := pyRound (max upload_speed 0) 1
       download_speed := pyRound (max download_speed 0) 1
       total_sent := pyRound total_sent 2
       total_received := pyRound total_received 2 }, some current_stats)
  | _, _ => (netZeroRecord, network_baseline)

/-- Iterates `get_network_stats` over a sequence of ticks, collecting the
emitted records and threading the baseline state. -/
def run_network (b : Option NetCounters) :
    List (Option NetCounters) → List NetRecord × Option NetCounters
  | [] => ([], b)
  | r :: rest =>
    let step := get_network_stats b r
    let tail := run_network step.2 rest
    (step.1 :: tail.1, tail.2)

/-- Iterates `get_gpu_stats` over a sequence of ticks, collecting the emitted
records and threading the `max_gpu_temp` state. -/
def run_gpu (nvidia_available has_handle : Bool) (gpu_name : String)
    (st : ℤ) : List GpuQueries → List GpuRecord × ℤ
  | [] => ([], st)
  | q :: rest =>
    let step := get_gpu_stats nvidia_available has_handle gpu_name st q
    let tail := run_gpu nvidia_available has_handle gpu_name step.2 rest
    (step.1 :: tail.1, tail.2)

/-- The per-tick provider inputs of one `get_all_stats` call. -/
structure MonitorEnv where
  cpuData : Except Unit CpuData
  memData : Except Unit MemData
  gpu : GpuQueries
  partitions : Except Unit (List PartitionData)
  net_reading : Option NetCounters
  timestamp : String

/-- The mutable and configuration state of a `SystemMonitor` instance. -/
structure MonitorState where
  update_interval : ℤ
  max_gpu_temp : ℤ
  network_baseline : Option NetCounters
  nvidia_available : Bool
  has_handle : Bool
  gpu_name : String
  is_linux : Bool
  hostname : String
  ip_addresses : List String
  connected_clients : List (String × ClientRecord)
  platform_name : String

/-- The assembled per-tick snapshot of `SystemMonitor.get_all_stats`. -/
structure Snapshot where
  cpu : CpuRecord
  memory : MemRecord
  gpu : GpuRecord
  disks : List (String × DiskEntry)
  network : NetRecord
  hostname : String
  ip_addresses : List String
  connected_clients : List (String × ClientRecord)
  platform_name : String
  timestamp : String

/-- Embeds `SystemMonitor.get_all_stats` (src/main.py lines 322-335): invoke
every adapter, thread the two pieces of deriver state. -/
def get_all_stats (st : MonitorState) (env : MonitorEnv) :
    Snapshot × MonitorState :=
  let g := get_gpu_stats st.nvidia_available st.has_handle st.gpu_name
    st.max_gpu_temp env.gpu
  let n := get_network_stats st.network_baseline env.net_reading
  ({ cpu := get_cpu_stats env.cpuData
     memory := get_memory_stats env.memData
     gpu := g.1
     disks := get_disk_stats st.is_linux env.partitions
     network := n.1
     hostname := st.hostname
     ip_addresses := st.ip_addresses
     connected_clients := st.connected_clients
     platform_name := st.platform_name
     timestamp := env.timestamp },
   { st with max_gpu_temp := g.2, network_baseline := n.2 })

/-- Embeds the socket handler `handle_update_interval` (src/main.py lines
1243-1253): touch the client's activity, read `data.get('interval', 1000)`
(`none` models a message without the field), accept iff in [100, 10000];
returns the new state and the optional `interval_updated` acknowledgement
payload. -/
def handle_update_interval (st : MonitorState) (client_id now : String)
    (data : Option ℤ) : MonitorState × Option ℤ :=
  let st1 := { st with
    connected_clients := update_client_activity st.connected_clients client_id now }
  let new_interval := data.getD 1000
  if 100 ≤ new_interval ∧ new_interval ≤ 10000 then
    ({ st1 with update_interval := new_interval }, some new_interval)
  else (st1, none)

/-! Shared lemmas about the rounding helper and the dict model. -/

theorem roundHalfEven_nonneg {x : ℚ} (h : 0 ≤ x) : 0 ≤ roundHalfEven x := by
  have hf : (0 : ℤ) ≤ ⌊x⌋ := Int.floor_nonneg.mpr h
  unfold roundHalfEven
  split_ifs <;> omega

theorem roundHalfEven_le {x : ℚ} {c : ℤ} (h : x ≤ (c : ℚ)) :
    roundHalfEven x ≤ c := by
  have hf : ⌊x⌋ ≤ c := by
    have h1 := Int.floor_le_floor h
    simpa using h1
  have hfl : (⌊x⌋ : ℚ) ≤ x := Int.floor_le x
  unfold roundHalfEven
  split_ifs with h1 h2 h3
  · exact hf
  · have hx : (⌊x⌋ : ℚ) < (c : ℚ) := by linarith
    have : ⌊x⌋ < c := by exact_mod_cast hx
    omega
  · exact hf
  · have hr : (1 : ℚ)/2 ≤ x - ⌊x⌋ := le_of_not_lt h1
    have hx : (⌊x⌋ : ℚ) < (c : ℚ) := by linarith
    have : ⌊x⌋ < c := by exact_mod_cast hx
    omega

theorem pyRound_nonneg {x : ℚ} (n : ℕ) (h : 0 ≤ x) : 0 ≤ pyRound x n := by
  unfold pyRound
  have hp : (0 : ℚ) < 10 ^ n := by positivity
  have h1 : (0 : ℤ) ≤ roundHalfEven (x * 10 ^ n) :=
    roundHalfEven_nonneg (by positivity)
  have h2 : (0 : ℚ) ≤ (roundHalfEven (x * 10 ^ n) : ℚ) := by exact_mod_cast h1
  exact div_nonneg h2 (le_of_lt hp)

theorem pyRound_le_hundred (x : ℚ) (n : ℕ) (h : x ≤ 100) :
    pyRound x n ≤ 100 := by
  unfold pyRound
  have hp : (0 : ℚ) < 10 ^ n := by positivity
  have h1 : roundHalfEven (x * 10 ^ n) ≤ 100 * 10 ^ n := by
    apply roundHalfEven_le
    push_cast
    exact mul_le_mul_of_nonneg_right h (le_of_lt hp)
  rw [div_le_iff₀ hp]
  calc (roundHalfEven (x * 10 ^ n) : ℚ) ≤ ((100 * 10 ^ n : ℤ) : ℚ) := by
        exact_mod_cast h1
    _ = 100 * 10 ^ n := by push_cast; ring

theorem dictGet_dictInsert {V : Type} :
    ∀ (l : List (String × V)) (k : String) (v : V),
    dictGet (dictInsert l k v) k = some v := by
  intro l k v
  induction l with
  | nil => simp [dictInsert, dictGet]
  | cons e t ih =>
    by_cases h : e.1 = k
    · simp [dictInsert, dictGet, h]
    · simp [dictInsert, dictGet, h, ih]

/-- C1: on every tick, whatever combination of provider failures occurs, the
assembled snapshot is a total record whose numeric fields are ordinary
rationals/integers (the embedding has no NaN, infinity or missing field), and
each adapter maps a provider failure to exactly its documented zero/default
record: CPU to usage 0 / frequency 0 / max 5.0, memory to all zeros, disks to
the empty mapping, GPU to its fully-zeroed sentinel record (for each of
"library unavailable", "handle missing" and "query raised"), and network to
the all-zero record whenever the reading or the baseline is absent. -/
theorem c1_adapter_defaults :
    ∀ (st : MonitorState) (env : MonitorEnv) (il hh : Bool) (nm : String)
      (mt : ℤ) (q : GpuQueries) (b r : Option NetCounters),
    (get_all_stats st env).1.cpu = get_cpu_stats env.cpuData ∧
    (get_all_stats st env).1.memory = get_memory_stats env.memData ∧
    (get_all_stats st env).1.gpu =
      (get_gpu_stats st.nvidia_available st.has_handle st.gpu_name
        st.max_gpu_temp env.gpu).1 ∧
    (get_all_stats st env).1.disks = get_disk_stats st.is_linux env.partitions ∧
    (get_all_stats st env).1.network =
      (get_network_stats st.network_baseline env.net_reading).1 ∧
    get_cpu_stats (.error ()) =
      { usage := 0, frequency := 0, max_frequency := 5 } ∧
    get_memory_stats (.error ()) =
      { usage_percent := 0, used_gb := 0, total_gb := 0 } ∧
    get_disk_stats il (.error ()) = [] ∧
    get_gpu_stats false hh nm mt q =
      (gpu_zero_record "GPU Not Available" "N/A" "N/A", mt) ∧
    get_gpu_stats true false nm mt q =
      (gpu_zero_record nm "Error" "Error", mt) ∧
    get_gpu_stats true true nm mt { q with tempQ := .error () } =
      (gpu_zero_record nm "Error" "Error", mt) ∧
    get_network_stats b none = (netZeroRecord, b) ∧
    get_network_stats none r = (netZeroRecord, none) := by
  intro st env il hh nm mt q b r
  refine ⟨rfl, rfl, rfl, rfl, rfl, rfl, rfl, rfl, rfl, rfl, rfl, ?_, ?_⟩
  · cases b <;> rfl
  · cases r <;> rfl

/-- C7: a cadence-change message carrying an integer is accepted if and only
if its value lies in [100, 10000]; on acceptance the process-wide
`update_interval` becomes that value and the acknowledgement carries it,
while an out-of-range value leaves `update_interval` unchanged and produces
no acknowledgement. -/
theorem c7_cadence_validation :
    ∀ (st : MonitorState) (client_id now : String) (v : ℤ),
    ((handle_update_interval st client_id now (some v)).2 = some v ↔
      (100 ≤ v ∧ v ≤ 10000)) ∧
    ((handle_update_interval st client_id now (some v)).2 = none ↔
      ¬ (100 ≤ v ∧ v ≤ 10000)) ∧
    (handle_update_interval st client_id now (some v)).1.update_interval =
      (if 100 ≤ v ∧ v ≤ 10000 then v else st.update_interval) := by
  intro st client_id now v
  unfold handle_update_interval
  simp only [Option.getD_some]
  split_ifs with h <;> simp [h]

/-- C9: a cadence-change message with no interval field at all defaults to
1000, which passes validation: the interval is set to 1000 and the
acknowledgement carries 1000, whatever was configured before. -/
theorem c9_missing_field_default :
    ∀ (st : MonitorState) (client_id now : String),
    (handle_update_interval st client_id now none).1.update_interval = 1000 ∧
    (handle_update_interval st client_id now none).2 = some 1000 := by
  intro st client_id now
  exact ⟨rfl, rfl⟩

/-- C4 counterexample: registering the same id a second time is not a no-op.
With an entry created at time "T0", a second `add_client` call at time "T1"
replaces the record (both timestamps become "T1"), so the registry entry
changes. -/
theorem c4_counterexample :
    dictGet (add_client (add_client [] "A" "10.0.0.5" "T0") "A" "10.0.0.5" "T1")
        "A" ≠
      dictGet (add_client [] "A" "10.0.0.5" "T0") "A" := by
  decide

/-- C4 corrected: `add_client` unconditionally overwrites: after the call the
entry for the id is exactly {ip, connected_at := now, last_seen := now},
whether or not the id was already present (a repeated registration therefore
resets `connected_at` rather than leaving the record unchanged). -/
theorem c4_amended :
    ∀ (clients : List (String × ClientRecord)) (client_id client_ip now : String),
    dictGet (add_client clients client_id client_ip now) client_id =
      some { ip := client_ip, connected_at := now, last_seen := now } := by
  intro clients client_id client_ip now
  exact dictGet_dictInsert clients client_id _

theorem getLastD_of_cons {α : Type} (c : α) (l : List α) (b : α) :
    ((c :: l).getLast?).getD b = (l.getLast?).getD c := by
  cases l with
  | nil => rfl
  | cons x xs =>
    rw [List.getLast?_cons_cons]
    cases h : (x :: xs).getLast? with
    | none => simp at h
    | some y => rfl

theorem run_network_baseline_some :
    ∀ (rs : List (Option NetCounters)) (b : NetCounters),
    (run_network (some b) rs).2 = some (((rs.filterMap id).getLast?).getD b) := by
  intro rs
  induction rs with
  | nil => intro b; simp [run_network]
  | cons r rest ih =>
    intro b
    cases r with
    | none =>
      show (run_network (get_network_stats (some b) none).2 rest).2 = _
      have hstep : get_network_stats (some b) none = (netZeroRecord, some b) := rfl
      rw [hstep]
      simpa [List.filterMap_cons] using ih b
    | some c =>
      show (run_network (get_network_stats (some b) (some c)).2 rest).2 = _
      have hstep : (get_network_stats (some b) (some c)).2 = some c := rfl
      rw [hstep, ih c, List.filterMap_cons]
      simp [getLastD_of_cons]

/-- C5 counterexample: a tick on which the counters are read successfully but
the baseline is absent does not overwrite the baseline with the tick's
counters — the code returns early and leaves the baseline as it was. -/
theorem c5_counterexample :
    (get_network_stats none (some { bytes_sent := 5, bytes_recv := 7 })).2 ≠
      some { bytes_sent := 5, bytes_recv := 7 } := by
  simp [get_network_stats]

/-- C5 corrected: on every tick on which the counters are read successfully
AND a baseline is present, the baseline is overwritten with that tick's
counters; consequently, starting from any present baseline, after any
sequence of ticks the baseline equals the counters of the most recent
successful reading (the initial baseline when none succeeded) — never an
older one. When the baseline is absent a successful reading does NOT
install it (see the counterexample). -/
theorem c5_amended :
    ∀ (b cur : NetCounters) (rs : List (Option NetCounters)),
    (get_network_stats (some b) (some cur)).2 = some cur ∧
    (run_network (some b) rs).2 = some (((rs.filterMap id).getLast?).getD b) := by
  intro b cur rs
  exact ⟨rfl, run_network_baseline_some rs b⟩

/-- C10: an absent baseline is absorbing. If the constructor-time counter
read failed (baseline `none`), then for any sequence of subsequent ticks
every emitted network record is the all-zero record and the baseline is
still `none` afterwards — the network metrics never recover even when the
counters become readable again. -/
theorem c10_absent_baseline_absorbing :
    ∀ (rs : List (Option NetCounters)),
    (run_network none rs).1 = rs.map (fun _ => netZeroRecord) ∧
    (run_network none rs).2 = none := by
  intro rs
  induction rs with
  | nil => exact ⟨rfl, rfl⟩
  | cons r rest ih =>
    have hstep : get_network_stats none r = (netZeroRecord, none) := by
      cases r <;> rfl
    refine ⟨?_, ?_⟩
    · show (get_network_stats none r).1 ::
          (run_network (get_network_stats none r).2 rest).1 = _
      rw [hstep]
      simpa using ih.1
    · show (run_network (get_network_stats none r).2 rest).2 = none
      rw [hstep]
      exact ih.2

/-- C2 counterexample: when both counter deltas are negative the reported
usage percent is negative, so it is not clamped to [0,100]. With baseline
counters 2097152/2097152 and current counters 1048576/1048576 both raw
speeds are -8 Mbps and the reported usage is -8. -/
theorem c2_counterexample :
    (get_network_stats (some { bytes_sent := 2097152, bytes_recv := 2097152 })
        (some { bytes_sent := 1048576, bytes_recv := 1048576 })).1.usage
      = -8 ∧ (-8 : ℚ) < 0 := by
  constructor
  · norm_num [get_network_stats, pyRound, roundHalfEven, min_def, max_def]
  · norm_num

/-- C2 corrected: the usage percent equals
round(min(max(upload, download) / 100 × 100, 100), 1) computed from the RAW
(unclamped) speeds: it is clamped above at 100 but not below at 0, so it can
be negative when both counter deltas are negative. -/
theorem c2_amended :
    ∀ (base cur : NetCounters),
    (get_network_stats (some base) (some cur)).1.usage =
      pyRound (min (max
        (((cur.bytes_sent - base.bytes_sent : ℤ) : ℚ) * 8 / 1048576)
        (((cur.bytes_recv - base.bytes_recv : ℤ) : ℚ) * 8 / 1048576)
        / 100 * 100) 100) 1 ∧
    (get_network_stats (some base) (some cur)).1.usage ≤ 100 := by
  intro base cur
  have hu : ((cur.bytes_sent - base.bytes_sent : ℤ) : ℚ) / 1 * 8 / 1024 / 1024 =
      ((cur.bytes_sent - base.bytes_sent : ℤ) : ℚ) * 8 / 1048576 := by
    ring
  have hd : ((cur.bytes_recv - base.bytes_recv : ℤ) : ℚ) / 1 * 8 / 1024 / 1024 =
      ((cur.bytes_recv - base.bytes_recv : ℤ) : ℚ) * 8 / 1048576 := by
    ring
  constructor
  · show pyRound (min (max
        (((cur.bytes_sent - base.bytes_sent : ℤ) : ℚ) / 1 * 8 / 1024 / 1024)
        (((cur.bytes_recv - base.bytes_recv : ℤ) : ℚ) / 1 * 8 / 1024 / 1024)
        / 100 * 100) 100) 1 = _
    rw [hu, hd]
  · exact pyRound_le_hundred _ 1 (min_le_right _ _)

/-- C8: the reported upload and download speeds are never negative, for every
combination of baseline and current reading — including counter resets/wraps
where the current counters are below the baseline (the raw negative speed is
clamped to zero before rounding), and the failure paths that report zero. -/
theorem c8_speeds_nonneg :
    ∀ (b r : Option NetCounters),
    0 ≤ (get_network_stats b r).1.upload_speed ∧
    0 ≤ (get_network_stats b r).1.download_speed := by
  intro b r
  cases r with
  | none => cases b <;> simp [get_network_stats, netZeroRecord]
  | some cur =>
    cases b with
    | none => simp [get_network_stats, netZeroRecord]
    | some base =>
      constructor
      · exact pyRound_nonneg 1 (le_max_right _ _)
      · exact pyRound_nonneg 1 (le_max_right _ _)

/-- C3 counterexample: the code filters on the string prefix "169." and on
the single literal "127.0.0.1", not on the link-local and loopback ranges.
The address 169.1.2.3 (not link-local, claimed included) is excluded, and
the loopback address 127.0.0.2 (claimed excluded) is included. -/
theorem c3_counterexample :
    get_ip_addresses (.ok [("eth0", [{ family := 2, address := "169.1.2.3" }])])
        = [] ∧
    get_ip_addresses (.ok [("lo", [{ family := 2, address := "127.0.0.2" }])])
        = ["127.0.0.2"] := by
  constructor
  · decide
  · decide

/-- C3 corrected: the result contains exactly the IPv4 (family 2) addresses
that do not start with the string "169." and are not the exact string
"127.0.0.1" — so the whole of 169.0.0.0/8 is excluded (not only
169.254.0.0/16) and loopback addresses other than 127.0.0.1 are included. -/
theorem c3_amended :
    ∀ (l : List (String × List IfaceAddr)) (ip : String),
    ip ∈ get_ip_addresses (.ok l) ↔
      ∃ iface ∈ l, ∃ a ∈ iface.2,
        a.family = 2 ∧ a.address = ip ∧
        pyStartsWith ip "169." = false ∧ ip ≠ "127.0.0.1" := by
  intro l ip
  simp only [get_ip_addresses, List.mem_flatMap, List.mem_filterMap]
  constructor
  · rintro ⟨iface, hif, a, ha, h⟩
    rw [Option.ite_none_right_eq_some, Option.some_inj] at h
    obtain ⟨⟨h2, hs, hne⟩, rfl⟩ := h
    exact ⟨iface, hif, a, ha, h2, rfl, hs, hne⟩
  · rintro ⟨iface, hif, a, ha, h2, rfl, hs, hne⟩
    refine ⟨iface, hif, a, ha, ?_⟩
    rw [Option.ite_none_right_eq_some, Option.some_inj]
    exact ⟨⟨h2, hs, hne⟩, rfl⟩

/-- A GPU tick whose temperature query succeeds (returning `t`), with every
other sub-query failing; used for concrete runs. -/
def gpuOkQueries (t : ℤ) : GpuQueries :=
  { tempQ := .ok t, fanQ := .error (), powerQ := .error ()
    utilQ := .error (), memQ := .error (), verQ := .error () }

/-- A GPU tick whose temperature query itself raises. -/
def gpuFailQueries : GpuQueries :=
  { tempQ := .error (), fanQ := .error (), powerQ := .error ()
    utilQ := .error (), memQ := .error (), verQ := .error () }

/-- C6 counterexample: with the GPU available and a handle present, a
successful sample at 70°C followed by a sample whose temperature query fails
reports max_temp values [70, 0] — the reported peak drops to the zeroed
default on the failed sample, so the reported sequence is not monotone. -/
theorem c6_counterexample :
    ((run_gpu true true "GeForce RTX" 0
        [gpuOkQueries 70, gpuFailQueries]).1.map GpuRecord.max_temp)
      = [70, 0] ∧
    ¬ List.Chain' (· ≤ ·)
      ((run_gpu true true "GeForce RTX" 0
        [gpuOkQueries 70, gpuFailQueries]).1.map GpuRecord.max_temp) := by
  constructor
  · decide
  · have h1 : ((run_gpu true true "GeForce RTX" 0
        [gpuOkQueries 70, gpuFailQueries]).1.map GpuRecord.max_temp)
        = [(70 : ℤ), 0] := by decide
    rw [h1]
    intro hch
    rw [List.chain'_cons] at hch
    exact absurd hch.1 (by decide)

theorem run_gpu_ok_chain (name : String) :
    ∀ (samples : List (ℤ × GpuQueries)) (st : ℤ),
    List.Chain' (· ≤ ·)
      ((run_gpu true true name st
        (samples.map fun s => { s.2 with tempQ := .ok s.1 })).1.map
          GpuRecord.max_temp) ∧
    (∀ y ∈ ((run_gpu true true name st
        (samples.map fun s => { s.2 with tempQ := .ok s.1 })).1.map
          GpuRecord.max_temp).head?, st ≤ y) := by
  intro samples
  induction samples with
  | nil => intro st; simp [run_gpu]
  | cons s rest ih =>
    intro st
    have hrec : ((run_gpu true true name st
        (((s :: rest)).map fun s => { s.2 with tempQ := .ok s.1 })).1.map
          GpuRecord.max_temp) =
        max st s.1 :: ((run_gpu true true name (max st s.1)
          (rest.map fun s => { s.2 with tempQ := .ok s.1 })).1.map
            GpuRecord.max_temp) := rfl
    rw [hrec]
    refine ⟨?_, ?_⟩
    · rw [List.chain'_cons']
      refine ⟨fun y hy => ?_, (ih (max st s.1)).1⟩
      have := (ih (max st s.1)).2 y hy
      exact this
    · intro y hy
      simp only [List.head?_cons, Option.mem_def, Option.some_inj] at hy
      subst hy
      exact le_max_left _ _

/-- C6 corrected: the internal peak state `max_gpu_temp` is never lowered by
any sample (including failed ones), and a successful sample sets it to
max(previous, observed temperature) and reports exactly that value; hence
across any run of successful samples the reported max_temp values are
monotonically non-decreasing. A sample whose temperature query fails leaves
the state unchanged but reports the zeroed default record (max_temp 0), so
the reported sequence can drop when a failure intervenes (see the
counterexample). -/
theorem c6_amended :
    ∀ (avail hasH : Bool) (name : String) (st : ℤ) (q : GpuQueries) (t : ℤ)
      (samples : List (ℤ × GpuQueries)),
    st ≤ (get_gpu_stats avail hasH name st q).2 ∧
    (get_gpu_stats true true name st { q with tempQ := .ok t }).2 = max st t ∧
    (get_gpu_stats true true name st { q with tempQ := .ok t }).1.max_temp =
      max st t ∧
    List.Chain' (· ≤ ·)
      ((run_gpu true true name st
        (samples.map fun s => { s.2 with tempQ := .ok s.1 })).1.map
          GpuRecord.max_temp) := by
  intro avail hasH name st q t samples
  refine ⟨?_, rfl, rfl, (run_gpu_ok_chain name samples st).1⟩
  cases avail with
  | false => exact le_refl st
  | true =>
    cases hasH with
    | false => exact le_refl st
    | true =>
      show st ≤ (match q.tempQ with
        | .error _ => (gpu_zero_record name "Error" "Error", st)
        | .ok temp => _).2
      cases hq : q.tempQ with
      | error e => simp [get_gpu_stats, hq]
      | ok temp => simp [get_gpu_stats, hq]
